import Mathlib

/-!
Formal model of the `ThermalImageClassifierEfficientNet` class in
`src/tranfer-learning/tl-efficient.py`.

The Python class is thin orchestration over TensorFlow/Keras; this file embeds
the class state, the dataset-preparation pipeline, model assembly, the training
callbacks (ModelCheckpoint, ReduceLROnPlateau), fine-tuning, evaluation,
persistence and plotting as pure Lean functions.  Framework primitives that the
source calls (`tf.one_hot`, `tf.image.grayscale_to_rgb`,
`image_dataset_from_directory`, callback semantics, model save/load) are
modelled by their documented TensorFlow/Keras contracts; everything the
repository itself does (which method touches which attribute, the layer graph
that `build_model` produces, the exact callback configuration, the dict-based
dataset dispatch in `evaluate`, the `None` guards) is translated directly from
the source.  Machine floats are modelled as rationals; per-epoch metric values
produced by the opaque training loop are supplied by an oracle function.
-/

set_option autoImplicit false

namespace TLEfficient

/-- A batched image tensor of static shape (batch, height, width, channels).
TensorFlow shapes are static graph metadata, carried here as explicit fields;
`data` holds the (rational-valued) pixel contents, nested batch/row/col/channel. -/
structure Tensor4 where
  batch : Nat
  height : Nat
  width : Nat
  channels : Nat
  data : List (List (List (List ℚ)))
deriving DecidableEq

/-- Model of `tf.image.grayscale_to_rgb`: replicate the (single) channel three
times; the last dimension becomes 3 and all other dimensions are untouched. -/
def grayscale_to_rgb (t : Tensor4) : Tensor4 :=
  { t with
    channels := 3
    data := t.data.map (fun im =>
      im.map (fun row => row.map (fun cs => cs.flatMap (fun v => [v, v, v])))) }

/-- Model of `_grey_to_rgb` (source lines 41-44): convert to RGB when the last
dimension is 1, otherwise return the batch unchanged. -/
def grey_to_rgb (t : Tensor4) : Tensor4 :=
  if t.channels = 1 then grayscale_to_rgb t else t

/-- Model of `tf.one_hot y num_classes`: a length-`num_classes` vector with a 1
at position `y`.  Per the TensorFlow contract an out-of-range index does not
raise; it simply yields the all-zero vector. -/
def oneHot (num_classes y : Nat) : List ℚ :=
  (List.range num_classes).map (fun i => if i = y then 1 else 0)

/-- A dataset directory on disk: one subdirectory per class, each holding some
number of image files.  Subdirectory names are listed in sorted order, which is
the order `image_dataset_from_directory` uses to assign integer labels. -/
structure DatasetDir where
  classes : List (String × Nat)
deriving DecidableEq

/-- Total number of image files below a dataset directory. -/
def totalImages (d : DatasetDir) : Nat :=
  (d.classes.map (fun c => c.2)).sum

/-- A decoded, resized image as produced by `image_dataset_from_directory` with
the default `color_mode` of rgb: three channels at the requested spatial size.
The pixel contents live in files on disk and are not modelled; the pipeline
logic in the source only inspects the (static) shape. -/
def decodedImage (image_size : Nat × Nat) : Tensor4 :=
  { batch := 1, height := image_size.1, width := image_size.2, channels := 3, data := [] }

/-- A raw labelled dataset: inferred class names plus (image, integer label)
elements.  Batching and shuffling only permute/group elements and are
irrelevant to every claim, so elements are kept one image at a time. -/
structure RawDataset where
  classNames : List String
  elems : List (Tensor4 × Nat)
deriving DecidableEq

/-- Model of `tf.keras.utils.image_dataset_from_directory` as called at source
lines 57-61: infer one class per subdirectory (no `class_names` argument is
passed, so the inferred class count is never compared to anything), label each
image with its class index, resize to `image_size`.  It raises only when the
directory holds no images at all. -/
def image_dataset_from_directory (dir : DatasetDir) (image_size : Nat × Nat)
    (batch_size : Nat) : Except String RawDataset :=
  if totalImages dir = 0 then
    Except.error "ValueError: No images found in directory"
  else
    Except.ok
      { classNames := dir.classes.map (fun c => c.1)
        elems := dir.classes.enum.flatMap (fun p =>
          (List.range p.2.2).map (fun _ => (decodedImage image_size, p.1))) }

/-- A prepared dataset: elements carry a one-hot label vector. -/
structure Dataset where
  elems : List (Tensor4 × List ℚ)
deriving DecidableEq

/-- Model of `_prepare_dataset` (source lines 46-70): load from the directory,
one-hot encode labels to `num_classes` positions, convert grayscale images to
RGB.  `cache()` and `prefetch()` only affect evaluation strategy and are the
identity on the element sequence. -/
def prepare_dataset (num_classes : Nat) (image_size : Nat × Nat)
    (dir : DatasetDir) (batch_size : Nat := 32) : Except String Dataset :=
  match image_dataset_from_directory dir image_size batch_size with
  | Except.error e => Except.error e
  | Except.ok raw =>
      Except.ok { elems := raw.elems.map (fun e => (grey_to_rgb e.1, oneHot num_classes e.2)) }

/-- A Keras layer kind, one constructor per layer class appearing in
`build_model` / `_create_augmentation_model`. -/
inductive LayerKind where
  | inputLayer
  | resizing
  | randomBrightness
  | randomContrast
  | randomFlip
  | lambdaPreprocess
  | backbone
  | globalAvgPool
  | dense
deriving DecidableEq

/-- A layer of the assembled Keras model.  Only `Model` objects expose a
`.layers` attribute; this is modelled by `sublayers`: `none` for a plain layer
(attribute access raises), `some flags` for a nested model whose nested layers
carry the given trainable flags. -/
structure KerasLayer where
  kind : LayerKind
  trainable : Bool
  sublayers : Option (List Bool)
deriving DecidableEq

/-- Record of a training run, as consumed by `plot_training_history`. -/
structure TrainHistory where
  numEpochs : Nat
deriving DecidableEq

/-- The compiled Keras model owned by the classifier.  `lossName` and
`metricNames` record the compile-time configuration that determines which keys
appear in the per-epoch logs; `weights` stands for the trained parameters. -/
structure KModel where
  inputShape : Nat × Nat × Nat
  outputUnits : Nat
  layers : List KerasLayer
  lossName : String
  metricNames : List String
  learningRate : ℚ
  weights : List ℚ
deriving DecidableEq

/-- The classifier instance state: configuration fixed in `__init__`, the three
prepared datasets, and the mutable `model` / `history` attributes (both `None`
until `build_model` / `train` run). -/
structure Classifier where
  num_classes : Nat
  height : Nat
  width : Nat
  train_ds : Dataset
  val_ds : Dataset
  test_ds : Dataset
  model : Option KModel
  history : Option TrainHistory
deriving DecidableEq

/-- Model of `__init__` (source lines 7-32): height fixed at 75, width derived
as `int(height * (320/240))` (exact rational arithmetic; the float computation
in Python also rounds to exactly 100.0), the three datasets prepared eagerly in
order train, val, test with the first failure propagating, and `model` /
`history` initialised to `None`.  `_setup_gpu` only prints and is omitted. -/
def initClassifier (train_dir val_dir test_dir : DatasetDir)
    (num_classes : Nat := 12) : Except String Classifier :=
  let h : Nat := 75
  let w : Nat := Int.toNat ⌊(h : ℚ) * (320 / 240)⌋
  match prepare_dataset num_classes (h, w) train_dir,
        prepare_dataset num_classes (h, w) val_dir,
        prepare_dataset num_classes (h, w) test_dir with
  | Except.ok tds, Except.ok vds, Except.ok teds =>
      Except.ok
        { num_classes := num_classes, height := h, width := w
          train_ds := tds, val_ds := vds, test_ds := teds
          model := none, history := none }
  | Except.error e, _, _ => Except.error e
  | _, Except.error e, _ => Except.error e
  | _, _, Except.error e => Except.error e

/-- The six layers contributed by `_create_augmentation_model` (source lines
96-106), as they appear — flattened, the functional graph being built from the
augmentation model's output tensor — at the head of `self.model.layers`:
InputLayer, Resizing, RandomBrightness, RandomContrast, RandomFlip, Lambda.
None of them is a `Model`, so none exposes a `.layers` attribute. -/
def augmentationLayers : List KerasLayer :=
  [ { kind := LayerKind.inputLayer, trainable := true, sublayers := none },
    { kind := LayerKind.resizing, trainable := true, sublayers := none },
    { kind := LayerKind.randomBrightness, trainable := true, sublayers := none },
    { kind := LayerKind.randomContrast, trainable := true, sublayers := none },
    { kind := LayerKind.randomFlip, trainable := true, sublayers := none },
    { kind := LayerKind.lambdaPreprocess, trainable := true, sublayers := none } ]

/-- The model `build_model` (source lines 72-94) assembles, after
`_compile_model()` (source lines 108-114) has run: the flattened functional
layer graph [augmentation layers, EfficientNetV2B3, GlobalAveragePooling2D,
Dense(num_classes, sigmoid)].  `pretrained.trainable = False` propagates False
to every nested backbone layer (Keras sets trainable recursively), modelled by
`List.replicate backboneSize false`.  Compilation records the Nadam learning
rate 1e-3, the loss's (oddly chosen) name string "val_loss" and the single
metric `Accuracy()`, whose log name is "accuracy".  The backbone layer count
and the pretrained imagenet weights are framework data, passed in as
parameters. -/
def builtModel (c : Classifier) (backboneSize : Nat) (w : List ℚ) : KModel :=
  { inputShape := (c.height, c.width, 3)
    outputUnits := c.num_classes
    layers := augmentationLayers ++
      [ { kind := LayerKind.backbone, trainable := false
          sublayers := some (List.replicate backboneSize false) },
        { kind := LayerKind.globalAvgPool, trainable := true, sublayers := none },
        { kind := LayerKind.dense, trainable := true, sublayers := none } ]
    lossName := "val_loss"
    metricNames := ["accuracy"]
    learningRate := 1 / 1000
    weights := w }

/-- Model of `build_model` (source lines 72-94): replace `self.model`
wholesale; `self.history` is not touched. -/
def build_model (c : Classifier) (backboneSize : Nat) (w : List ℚ) : Classifier :=
  { c with model := some (builtModel c backboneSize w) }

/-- Model of `fine_tune` (source lines 145-155).  The source iterates over
`self.model.layers[2].layers[start_layer:]` setting `trainable = True`, then
recompiles at learning rate 1e-4.  With `self.model = None` the attribute
lookup raises; with fewer than three layers the index raises; when
`layers[2]` is a plain layer (no `.layers` attribute) the attribute lookup
raises before any flag is flipped. -/
def fine_tune (c : Classifier) (start_layer : Nat := 402) : Except String Classifier :=
  match c.model with
  | none => Except.error "AttributeError: NoneType object has no attribute layers"
  | some m =>
      match m.layers[2]? with
      | none => Except.error "IndexError: list index out of range"
      | some L =>
          match L.sublayers with
          | none => Except.error "AttributeError: layer object has no attribute layers"
          | some subs =>
              let subs2 := subs.enum.map (fun p => if start_layer ≤ p.1 then true else p.2)
              let m2 := { m with
                layers := m.layers.set 2 { L with sublayers := some subs2 }
                learningRate := 1 / 10000 }
              Except.ok { c with model := some m2 }

/-- The dict lookup in `evaluate` (source lines 164-168):
`{'train': ..., 'val': ..., 'test': ...}.get(dataset)`, which yields `None`
(without raising) for any unknown key. -/
def evalLookup (c : Classifier) (dataset : String) : Option Dataset :=
  if dataset = "train" then some c.train_ds
  else if dataset = "val" then some c.val_ds
  else if dataset = "test" then some c.test_ds
  else none

/-- Model of `Model.evaluate`: called on `None` (the `.get` miss) the Keras
data adapter raises; on a dataset it returns the framework-computed scalar
results, whose values are opaque — only arity/success structure matters. -/
def model_evaluate (m : KModel) (ds : Option Dataset) : Except String (List ℚ) :=
  match ds with
  | none => Except.error "ValueError: Failed to find data adapter for x=None"
  | some d => Except.ok [0, (d.elems.length : ℚ)]

/-- Model of `evaluate` (source lines 157-170): build the dict, look the name
up, then call `self.model.evaluate` — which on `self.model = None` raises at
the attribute access. -/
def evaluate (c : Classifier) (dataset : String := "val") : Except String (List ℚ) :=
  let eval_ds := evalLookup c dataset
  match c.model with
  | none => Except.error "AttributeError: NoneType object has no attribute evaluate"
  | some m => model_evaluate m eval_ds

/-- The file system seen by `model.save` / `load_model`: newest binding first. -/
abbrev FileSystem : Type := List (String × KModel)

/-- Writing a model bundle to a path (Keras overwrites silently). -/
def fsSet (fs : FileSystem) (path : String) (m : KModel) : FileSystem :=
  (path, m) :: fs

/-- Reading the model bundle currently stored at a path. -/
def fsGet (fs : FileSystem) (path : String) : Option KModel :=
  (List.find? (fun e => e.1 == path) fs).map (fun e => e.2)

/-- Model of `save_model` (source lines 172-174): `self.model.save(path)`,
which on `self.model = None` raises at the attribute access.  The Keras save
format bundles architecture and weights — here, the whole `KModel` value. -/
def save_model (c : Classifier) (fs : FileSystem) (path : String) : Except String FileSystem :=
  match c.model with
  | none => Except.error "AttributeError: NoneType object has no attribute save"
  | some m => Except.ok (fsSet fs path m)

/-- Model of the classmethod `load_model` (source lines 176-184):
`tf.keras.models.load_model(path, custom_objects={'preprocess_input': ...})`.
The custom object supplies the normalization function referenced by the saved
Lambda layer, so deserialization reconstructs the stored bundle. -/
def load_model (fs : FileSystem) (path : String) : Option KModel :=
  fsGet fs path

/-- Abstraction of running the network forward: some concrete function of the
model's weights and head size.  The internal arithmetic is the framework's;
what the round-trip claim needs is that a loaded model is the very same model,
hence computes the same function. -/
def modelFun (m : KModel) (x : List ℚ) : List ℚ :=
  (List.range m.outputUnits).map (fun i => m.weights.getD i 0 * x.sum)

/-- Observable outcome of `plot_training_history`. -/
inductive PlotOutcome where
  | printedNoHistory
  | plotted
deriving DecidableEq

/-- Model of `plot_training_history` (source lines 186-211): with no stored
history it prints a message and returns (touching no attribute); otherwise it
renders the loss/accuracy curves.  The returned classifier is the instance
state after the call. -/
def plot_training_history (c : Classifier) : Except String (PlotOutcome × Classifier) :=
  match c.history with
  | none => Except.ok (PlotOutcome.printedNoHistory, c)
  | some _ => Except.ok (PlotOutcome.plotted, c)

/-- Whether `pat` is an initial run of `s` (character lists). -/
def leadsOk : List Char → List Char → Bool
  | [], _ => true
  | _ :: _, [] => false
  | c :: cs, d :: ds => c == d && leadsOk cs ds

/-- Whether `pat` occurs contiguously inside `s` (character lists). -/
def subIn (pat : List Char) : List Char → Bool
  | [] => leadsOk pat []
  | d :: ds => leadsOk pat (d :: ds) || subIn pat ds

/-- Keras `mode='auto'` resolution for a monitored quantity: maximise when its
name contains "acc", otherwise minimise. -/
def modeMax (monitor : String) : Bool :=
  subIn "acc".toList monitor.toList

/-- The keys present in the per-epoch logs dict for a model compiled as in
`_compile_model`: the loss under "loss"/"val_loss" plus each metric under its
name and its "val_"-prefixed name. -/
def logsKeys (m : KModel) : List String :=
  ["loss", "val_loss"] ++ m.metricNames ++ m.metricNames.map (fun n => "val_" ++ n)

/-- Looking a monitored quantity up in the epoch-`e` logs: present exactly when
the compile configuration produces that key, with the numeric value supplied by
the oracle (the training loop's arithmetic is the framework's). -/
def logsGet (m : KModel) (oracle : Nat → String → ℚ) (e : Nat) (key : String) : Option ℚ :=
  if key ∈ logsKeys m then some (oracle e key) else none

/-- The Keras callbacks relevant to `train`: the two the source attaches plus
`EarlyStopping`, modelled so that its absence from the attached list is a
meaningful statement. -/
inductive KCallback where
  | modelCheckpoint (filepath : String) (save_best_only : Bool) (monitor : String)
  | reduceLROnPlateau (monitor : String) (factor : ℚ) (patience : Nat) (min_lr : ℚ)
  | earlyStopping (monitor : String) (patience : Nat)
deriving DecidableEq

/-- Whether a callback is an early-stopping callback. -/
def isEarlyStopping : KCallback → Bool
  | KCallback.earlyStopping _ _ => true
  | _ => false

/-- The callback list built at source lines 124-136: a `ModelCheckpoint` on
`model_path` with `save_best_only=True` monitoring "val_binary_accuracy", and a
`ReduceLROnPlateau` monitoring "loss" with factor 0.1, patience 10 (and the
default `min_lr=0`).  Nothing else — in particular no `EarlyStopping`. -/
def trainCallbacks (model_path : String) : List KCallback :=
  [ KCallback.modelCheckpoint model_path true "val_binary_accuracy",
    KCallback.reduceLROnPlateau "loss" (1 / 10) 10 0 ]

/-- `ReduceLROnPlateau` internal state: current learning rate, best monitored
value so far (`none` is the initial infinity) and the stagnation counter. -/
structure RLRState where
  lr : ℚ
  best : Option ℚ
  wait : Nat
deriving DecidableEq

/-- The Keras improvement test for a minimised monitor with the default
`min_delta = 1e-4`: `current < best - min_delta`, with the initial best at
infinity always improved upon. -/
def rlrImproved (best : Option ℚ) (x : ℚ) : Bool :=
  match best with
  | none => true
  | some b => decide (x < b - 1 / 10000)

/-- One epoch-end step of `ReduceLROnPlateau` (default `cooldown = 0`, so the
cooldown branch never fires): on improvement record the new best and reset the
counter; otherwise bump the counter and, once it reaches `patience`, multiply
the learning rate by `factor` (clamped below by `min_lr`, and only touched at
all while above `min_lr`) and reset the counter. -/
def applyReduceLR (factor : ℚ) (patience : Nat) (min_lr : ℚ)
    (s : RLRState) (x : ℚ) : RLRState :=
  if rlrImproved s.best x then { s with best := some x, wait := 0 }
  else
    let w := s.wait + 1
    if patience ≤ w then
      if min_lr < s.lr then { lr := max (s.lr * factor) min_lr, best := s.best, wait := 0 }
      else { s with wait := w }
    else { s with wait := w }

/-- The learning-rate state machine as configured by `train`: factor 0.1,
patience 10, `min_lr = 0`, folded over a sequence of epoch losses. -/
def trainRLR (s : RLRState) (losses : List ℚ) : RLRState :=
  losses.foldl (applyReduceLR (1 / 10) 10 0) s

/-- The `ModelCheckpoint` comparison in `mode='auto'`: the first observed value
always beats the infinite initial best; later values must beat the stored best
in the direction the monitor name dictates. -/
def ckptBetter (monitor : String) (best : Option ℚ) (v : ℚ) : Bool :=
  match best with
  | none => true
  | some b => if modeMax monitor then decide (b < v) else decide (v < b)

/-- The `EarlyStopping` improvement test (default `min_delta = 0`, minimised
monitor). -/
def esImproved (best : Option ℚ) (v : ℚ) : Bool :=
  match best with
  | none => true
  | some b => decide (v < b)

/-- Per-epoch mutable state threaded through `Model.fit`: one slot of private
state per callback kind, the stop flag `EarlyStopping` would set, and the file
system `ModelCheckpoint` writes to. -/
structure FitState where
  rlr : RLRState
  ckptBest : Option ℚ
  esBest : Option ℚ
  esWait : Nat
  stop : Bool
  fs : FileSystem

/-- The epoch-end action of one callback.  A callback whose monitored key is
absent from the logs warns and does nothing (the Keras behaviour for a
misspelled monitor).  `ModelCheckpoint` with `save_best_only` writes the
current model bundle only on improvement; `ReduceLROnPlateau` steps its state
machine; `EarlyStopping` raises the stop flag after `patience` stagnant
epochs. -/
def applyCallback (m : KModel) (oracle : Nat → String → ℚ) (e : Nat)
    (st : FitState) (cb : KCallback) : FitState :=
  match cb with
  | KCallback.modelCheckpoint path sbo monitor =>
      match logsGet m oracle e monitor with
      | none => st
      | some v =>
          if sbo then
            if ckptBetter monitor st.ckptBest v then
              { st with ckptBest := some v, fs := fsSet st.fs path m }
            else st
          else { st with fs := fsSet st.fs path m }
  | KCallback.reduceLROnPlateau monitor factor patience min_lr =>
      match logsGet m oracle e monitor with
      | none => st
      | some v => { st with rlr := applyReduceLR factor patience min_lr st.rlr v }
  | KCallback.earlyStopping monitor patience =>
      match logsGet m oracle e monitor with
      | none => st
      | some v =>
          if esImproved st.esBest v then { st with esBest := some v, esWait := 0 }
          else if patience ≤ st.esWait + 1 then { st with esWait := st.esWait + 1, stop := true }
          else { st with esWait := st.esWait + 1 }

/-- One training epoch's callback phase: every attached callback runs. -/
def runEpoch (m : KModel) (oracle : Nat → String → ℚ) (cbs : List KCallback)
    (e : Nat) (st : FitState) : FitState :=
  cbs.foldl (applyCallback m oracle e) st

/-- The epoch loop of `Model.fit`: runs until the epoch budget is exhausted or
the stop flag is raised, returning the final state and the number of epochs
actually run. -/
def fitLoop (m : KModel) (oracle : Nat → String → ℚ) (cbs : List KCallback) :
    Nat → Nat → FitState → FitState × Nat
  | 0, _, st => (st, 0)
  | n + 1, e, st =>
      if st.stop then (st, 0)
      else
        let st2 := runEpoch m oracle cbs e st
        let r := fitLoop m oracle cbs n (e + 1) st2
        (r.1, r.2 + 1)

/-- Model of `Model.fit` as `train` calls it: thread the callback state over
the epochs, return the model with its (possibly reduced) learning rate, the
history record, and the file system after any checkpoint writes. -/
def fit (m : KModel) (epochs : Nat) (cbs : List KCallback)
    (oracle : Nat → String → ℚ) (fs : FileSystem) : KModel × TrainHistory × FileSystem :=
  let st0 : FitState :=
    { rlr := { lr := m.learningRate, best := none, wait := 0 }
      ckptBest := none, esBest := none, esWait := 0, stop := false, fs := fs }
  let r := fitLoop m oracle cbs epochs 0 st0
  ({ m with learningRate := r.1.rlr.lr }, { numEpochs := r.2 }, r.1.fs)

/-- Model of `train` (source lines 116-143): build the callback list, then call
`self.model.fit` — which on `self.model = None` raises at the attribute access —
and store the returned history. -/
def train (c : Classifier) (fs : FileSystem) (epochs : Nat)
    (model_path : String) (oracle : Nat → String → ℚ) :
    Except String (Classifier × FileSystem) :=
  let callbacks := trainCallbacks model_path
  match c.model with
  | none => Except.error "AttributeError: NoneType object has no attribute fit"
  | some m =>
      let r := fit m epochs callbacks oracle fs
      Except.ok ({ c with model := some r.1, history := some r.2.1 }, r.2.2)

/-- A concrete dataset directory with two class subdirectories holding one
image each, used to exercise the definitions at concrete inputs. -/
def exDir2 : DatasetDir :=
  { classes := [("faulty", 1), ("healthy", 1)] }

/-- The empty prepared dataset. -/
def emptyDataset : Dataset := { elems := [] }

/-- A placeholder classifier (only used as a `getD` default below). -/
def defaultClassifier : Classifier :=
  { num_classes := 0, height := 0, width := 0
    train_ds := emptyDataset, val_ds := emptyDataset, test_ds := emptyDataset
    model := none, history := none }

/-- The classifier obtained by constructing on `exDir2` for all three splits
with `num_classes = 2`. -/
def exClassifier : Classifier :=
  (initClassifier exDir2 exDir2 exDir2 2).toOption.getD defaultClassifier

/-- `exClassifier` after `build_model` with a 4-layer backbone. -/
def exBuilt : Classifier := build_model exClassifier 4 []

/-- The model stored in `exBuilt`. -/
def exModel : KModel := builtModel exClassifier 4 []

/-- A concrete single-channel batch: one 1x2 grayscale image. -/
def exGrey : Tensor4 :=
  { batch := 1, height := 1, width := 2, channels := 1, data := [[[[5], [7]]]] }

/-- A concrete three-channel batch. -/
def exRgb : Tensor4 :=
  { batch := 1, height := 1, width := 1, channels := 3, data := [[[[1, 2, 3]]]] }

/-! ## Supporting lemmas -/

/-- Inversion of a successful construction: the configuration `__init__` wrote
into the instance. -/
theorem initClassifier_ok (td vd ted : DatasetDir) (n : Nat) (c : Classifier)
    (h : initClassifier td vd ted n = Except.ok c) :
    c.num_classes = n ∧ c.height = 75 ∧ c.width = 100 ∧
    c.model = none ∧ c.history = none := by
  unfold initClassifier at h
  norm_num at h
  split at h
  case _ => cases h; exact ⟨rfl, rfl, rfl, rfl, rfl⟩
  case _ => cases h
  case _ => cases h
  case _ => cases h

/-! ## C6: input shape of the built model -/

/-- C6: after `build_model`, the model's input shape is the configured
(height, width, 3), where the constructor fixed height = 75 and derived
width = int(75 * (320/240)) = 100. -/
theorem build_model_input_shape (td vd ted : DatasetDir) (n backboneSize : Nat)
    (w : List ℚ) (c : Classifier)
    (hc : initClassifier td vd ted n = Except.ok c) :
    ∃ m, (build_model c backboneSize w).model = some m ∧
      m.inputShape = (c.height, c.width, 3) ∧ c.height = 75 ∧ c.width = 100 := by
  obtain ⟨-, h75, h100, -, -⟩ := initClassifier_ok td vd ted n c hc
  exact ⟨builtModel c backboneSize w, rfl, rfl, h75, h100⟩

/-- Witness for C6 at the concrete classifier. -/
theorem build_model_input_shape_wit :
    ∃ m, (build_model exClassifier 4 []).model = some m ∧
      m.inputShape = (exClassifier.height, exClassifier.width, 3) ∧
      exClassifier.height = 75 ∧ exClassifier.width = 100 :=
  build_model_input_shape exDir2 exDir2 exDir2 2 4 [] exClassifier (by rfl)

/-! ## C4: plotting before any training is a guarded no-op -/

/-- C4: with no stored history, `plot_training_history` prints a message and
returns, producing no plot and leaving the classifier state unchanged. -/
theorem plot_history_none_guard (c : Classifier) (h : c.history = none) :
    plot_training_history c = Except.ok (PlotOutcome.printedNoHistory, c) := by
  unfold plot_training_history
  rw [h]

/-- Witness for C4 at the freshly constructed classifier. -/
theorem plot_history_none_guard_wit :
    plot_training_history exClassifier =
      Except.ok (PlotOutcome.printedNoHistory, exClassifier) :=
  plot_history_none_guard exClassifier rfl

/-! ## C9: grayscale-to-RGB conversion -/

/-- C9: `_grey_to_rgb` maps a single-channel batch to a 3-channel batch with
identical batch/spatial dimensions by replicating the channel, and returns any
batch whose last dimension is not 1 unchanged. -/
theorem grey_to_rgb_spec (t : Tensor4) :
    (t.channels = 1 →
      (grey_to_rgb t).channels = 3 ∧
      (grey_to_rgb t).batch = t.batch ∧
      (grey_to_rgb t).height = t.height ∧
      (grey_to_rgb t).width = t.width ∧
      (grey_to_rgb t).data = t.data.map (fun im =>
        im.map (fun row => row.map (fun cs => cs.flatMap (fun v => [v, v, v]))))) ∧
    (t.channels ≠ 1 → grey_to_rgb t = t) := by
  constructor
  · intro h
    simp [grey_to_rgb, h, grayscale_to_rgb]
  · intro h
    simp [grey_to_rgb, h]

/-- Witness for C9: both branches at concrete batches. -/
theorem grey_to_rgb_spec_wit :
    ((grey_to_rgb exGrey).channels = 3 ∧
      (grey_to_rgb exGrey).batch = exGrey.batch ∧
      (grey_to_rgb exGrey).height = exGrey.height ∧
      (grey_to_rgb exGrey).width = exGrey.width ∧
      (grey_to_rgb exGrey).data = exGrey.data.map (fun im =>
        im.map (fun row => row.map (fun cs => cs.flatMap (fun v => [v, v, v]))))) ∧
    grey_to_rgb exRgb = exRgb :=
  ⟨(grey_to_rgb_spec exGrey).1 rfl, (grey_to_rgb_spec exRgb).2 (by decide)⟩

/-! ## C1: no class-count validation in dataset preparation -/

/-- C1 counterexample: a dataset directory with K = 2 class subdirectories is
loaded successfully with `num_classes = 1 ≠ 2`, both by `_prepare_dataset`
directly and via the constructor — the claimed failure does not occur. -/
theorem prepare_mismatch_succeeds_cex :
    exDir2.classes.length = 2 ∧
    (prepare_dataset 1 (75, 100) exDir2).isOk = true ∧
    (initClassifier exDir2 exDir2 exDir2 1).isOk = true := by
  refine ⟨rfl, rfl, rfl⟩

/-- C1 amended: `_prepare_dataset` (and hence the constructor) succeeds for
every `num_classes` whenever the directory holds at least one image — the
configured class count is never compared with the number of subdirectories;
labels at or beyond `num_classes` one-hot encode to the all-zero vector — and
it fails exactly when the directory holds no images at all. -/
theorem prepare_no_class_count_validation (n bsz : Nat) (sz : Nat × Nat)
    (dir : DatasetDir) (h : 0 < totalImages dir) :
    (prepare_dataset n sz dir bsz).isOk = true ∧
    (∀ y, n ≤ y → oneHot n y = List.replicate n 0) ∧
    (∀ d : DatasetDir, totalImages d = 0 →
      (prepare_dataset n sz d bsz).isOk = false) := by
  refine ⟨?_, ?_, ?_⟩
  · have h0 : totalImages dir ≠ 0 := Nat.pos_iff_ne_zero.mp h
    simp [prepare_dataset, image_dataset_from_directory, h0, Except.isOk, Except.toBool]
  · intro y hy
    have h2 : ∀ b ∈ (List.range n).map (fun i => if i = y then (1 : ℚ) else 0), b = 0 := by
      intro b hb
      simp only [List.mem_map, List.mem_range] at hb
      obtain ⟨i, hi, rfl⟩ := hb
      rw [if_neg]
      omega
    have h3 := List.eq_replicate_of_mem h2
    simpa [oneHot] using h3
  · intro d hd
    simp [prepare_dataset, image_dataset_from_directory, hd, Except.isOk, Except.toBool]

/-- Witness for the amended C1 at the concrete two-class directory with a
mismatched class count. -/
theorem prepare_no_class_count_validation_wit :
    (prepare_dataset 1 (75, 100) exDir2 32).isOk = true ∧
    (∀ y, 1 ≤ y → oneHot 1 y = List.replicate 1 0) ∧
    (∀ d : DatasetDir, totalImages d = 0 →
      (prepare_dataset 1 (75, 100) d 32).isOk = false) :=
  prepare_no_class_count_validation 1 32 (75, 100) exDir2 (by decide)

/-! ## C5: dataset dispatch in evaluate -/

/-- C5: the dict lookup in `evaluate` yields `None` (without raising) for every
name outside train/val/test and the subsequent evaluation call then fails,
while each of the three known names evaluates the corresponding dataset. -/
theorem evaluate_dispatch (c : Classifier) (m : KModel) (hm : c.model = some m) :
    (∀ s : String, s ≠ "train" → s ≠ "val" → s ≠ "test" →
      evalLookup c s = none ∧ (evaluate c s).isOk = false) ∧
    evaluate c "train" = model_evaluate m (some c.train_ds) ∧
    evaluate c "val" = model_evaluate m (some c.val_ds) ∧
    evaluate c "test" = model_evaluate m (some c.test_ds) := by
  refine ⟨?_, ?_, ?_, ?_⟩
  · intro s h1 h2 h3
    constructor
    · simp [evalLookup, h1, h2, h3]
    · simp [evaluate, evalLookup, hm, h1, h2, h3, model_evaluate, Except.isOk, Except.toBool]
  · simp [evaluate, evalLookup, hm]
  · simp [evaluate, evalLookup, hm]
  · simp [evaluate, evalLookup, hm]

/-- Witness for C5 at the concrete built classifier. -/
theorem evaluate_dispatch_wit :
    (∀ s : String, s ≠ "train" → s ≠ "val" → s ≠ "test" →
      evalLookup exBuilt s = none ∧ (evaluate exBuilt s).isOk = false) ∧
    evaluate exBuilt "train" = model_evaluate exModel (some exBuilt.train_ds) ∧
    evaluate exBuilt "val" = model_evaluate exModel (some exBuilt.val_ds) ∧
    evaluate exBuilt "test" = model_evaluate exModel (some exBuilt.test_ds) :=
  evaluate_dispatch exBuilt exModel rfl

/-! ## C10: every unguarded method fails before build_model -/

/-- C10: straight after construction the stored model is `None`, so `train`,
`evaluate`, `fine_tune` and `save_model` all fail on the `None` model, while
`plot_training_history` alone is guarded and returns leaving the state
unchanged. -/
theorem pre_build_methods_fail (td vd ted : DatasetDir) (n : Nat) (c : Classifier)
    (hc : initClassifier td vd ted n = Except.ok c) :
    c.model = none ∧
    (∀ (fs : FileSystem) (epochs : Nat) (p : String) (oracle : Nat → String → ℚ),
      train c fs epochs p oracle =
        Except.error "AttributeError: NoneType object has no attribute fit") ∧
    (∀ s : String, evaluate c s =
      Except.error "AttributeError: NoneType object has no attribute evaluate") ∧
    (∀ L : Nat, fine_tune c L =
      Except.error "AttributeError: NoneType object has no attribute layers") ∧
    (∀ (fs : FileSystem) (p : String), save_model c fs p =
      Except.error "AttributeError: NoneType object has no attribute save") ∧
    plot_training_history c = Except.ok (PlotOutcome.printedNoHistory, c) := by
  obtain ⟨-, -, -, hm, hh⟩ := initClassifier_ok td vd ted n c hc
  refine ⟨hm, ?_, ?_, ?_, ?_, ?_⟩
  · intro fs epochs p oracle
    simp [train, hm]
  · intro s
    simp [evaluate, hm]
  · intro L
    simp [fine_tune, hm]
  · intro fs p
    simp [save_model, hm]
  · simp [plot_training_history, hh]

/-- Witness for C10 at the freshly constructed classifier. -/
theorem pre_build_methods_fail_wit :
    exClassifier.model = none ∧
    (∀ (fs : FileSystem) (epochs : Nat) (p : String) (oracle : Nat → String → ℚ),
      train exClassifier fs epochs p oracle =
        Except.error "AttributeError: NoneType object has no attribute fit") ∧
    (∀ s : String, evaluate exClassifier s =
      Except.error "AttributeError: NoneType object has no attribute evaluate") ∧
    (∀ L : Nat, fine_tune exClassifier L =
      Except.error "AttributeError: NoneType object has no attribute layers") ∧
    (∀ (fs : FileSystem) (p : String), save_model exClassifier fs p =
      Except.error "AttributeError: NoneType object has no attribute save") ∧
    plot_training_history exClassifier =
      Except.ok (PlotOutcome.printedNoHistory, exClassifier) :=
  pre_build_methods_fail exDir2 exDir2 exDir2 2 exClassifier (by rfl)

/-! ## C7: save/load round trip -/

/-- C7: saving a built model and loading from the same path yields the very
same model bundle — in particular the same output shape and identical
predictions on every input. -/
theorem save_load_roundtrip (c : Classifier) (m : KModel) (fs : FileSystem)
    (path : String) (hm : c.model = some m) :
    ∃ fs2, save_model c fs path = Except.ok fs2 ∧
      load_model fs2 path = some m ∧
      (load_model fs2 path).map (fun mm => mm.outputUnits) = some m.outputUnits ∧
      (∀ x, (load_model fs2 path).map (fun mm => modelFun mm x) = some (modelFun m x)) := by
  have hload : load_model (fsSet fs path m) path = some m := by
    simp [load_model, fsGet, fsSet, List.find?]
  refine ⟨fsSet fs path m, ?_, hload, ?_, ?_⟩
  · simp [save_model, hm]
  · rw [hload]
    rfl
  · intro x
    rw [hload]
    rfl

/-- Witness for C7 at the concrete built classifier. -/
theorem save_load_roundtrip_wit :
    ∃ fs2, save_model exBuilt [] "model.keras" = Except.ok fs2 ∧
      load_model fs2 "model.keras" = some exModel ∧
      (load_model fs2 "model.keras").map (fun mm => mm.outputUnits) =
        some exModel.outputUnits ∧
      (∀ x, (load_model fs2 "model.keras").map (fun mm => modelFun mm x) =
        some (modelFun exModel x)) :=
  save_load_roundtrip exBuilt exModel [] "model.keras" rfl

/-! ## C2: fine_tune indexes the wrong layer and always raises -/

/-- C2 (code bug): in the built model the backbone sits at layer index 6 with
every nested layer non-trainable, while layer index 2 — the one `fine_tune`
dereferences — is the plain RandomBrightness layer with no `.layers`
attribute; consequently `fine_tune` raises for every start index, flipping no
trainable flag. -/
theorem fine_tune_wrong_layer_index (c : Classifier) (backboneSize : Nat)
    (w : List ℚ) (L : Nat) :
    ∃ m, (build_model c backboneSize w).model = some m ∧
      m.layers[2]? = some { kind := LayerKind.randomBrightness, trainable := true,
                            sublayers := none } ∧
      m.layers[6]? = some { kind := LayerKind.backbone, trainable := false,
                            sublayers := some (List.replicate backboneSize false) } ∧
      fine_tune (build_model c backboneSize w) L =
        Except.error "AttributeError: layer object has no attribute layers" :=
  ⟨builtModel c backboneSize w, rfl, rfl, rfl, rfl⟩

/-! ## Training-loop lemmas shared by C3 and C8 -/

/-- The log keys a model compiled by `_compile_model` produces. -/
theorem logsKeys_built (m : KModel) (hmet : m.metricNames = ["accuracy"]) :
    logsKeys m = ["loss", "val_loss", "accuracy", "val_accuracy"] := by
  simp [logsKeys, hmet]

/-- One epoch under the callbacks `train` attaches: the checkpoint's monitored
key is absent from the logs, so only the learning-rate state moves. -/
theorem runEpoch_train (m : KModel) (hmet : m.metricNames = ["accuracy"])
    (oracle : Nat → String → ℚ) (p : String) (e : Nat) (st : FitState) :
    runEpoch m oracle (trainCallbacks p) e st =
      { st with rlr := applyReduceLR (1 / 10) 10 0 st.rlr (oracle e "loss") } := by
  have hk := logsKeys_built m hmet
  have h1 : logsGet m oracle e "val_binary_accuracy" = none := by
    rw [logsGet, hk, if_neg (by decide)]
  have h2 : logsGet m oracle e "loss" = some (oracle e "loss") := by
    rw [logsGet, hk, if_pos (by decide)]
  simp [runEpoch, trainCallbacks, applyCallback, h1, h2]

/-- The epoch loop under `train`'s callbacks: the stop flag is never raised (so
all budgeted epochs run) and the file system is never written. -/
theorem fitLoop_train (m : KModel) (hmet : m.metricNames = ["accuracy"])
    (oracle : Nat → String → ℚ) (p : String) :
    ∀ (n e : Nat) (st : FitState), st.stop = false →
      (fitLoop m oracle (trainCallbacks p) n e st).1.fs = st.fs ∧
      (fitLoop m oracle (trainCallbacks p) n e st).1.stop = false ∧
      (fitLoop m oracle (trainCallbacks p) n e st).2 = n := by
  intro n
  induction n with
  | zero =>
      intro e st hstop
      exact ⟨rfl, hstop, rfl⟩
  | succ k ih =>
      intro e st hstop
      have hstep := runEpoch_train m hmet oracle p e st
      simp only [fitLoop, hstop, Bool.false_eq_true, if_false, hstep]
      obtain ⟨h1, h2, h3⟩ := ih (e + 1)
        { rlr := applyReduceLR (1 / 10) 10 0 st.rlr (oracle e "loss")
          ckptBest := st.ckptBest, esBest := st.esBest, esWait := st.esWait
          stop := false, fs := st.fs } rfl
      exact ⟨h1, h2, by rw [h3]⟩

/-- `Model.fit` as configured by `train` returns the file system untouched and
a history spanning the full epoch budget. -/
theorem fit_train (m : KModel) (hmet : m.metricNames = ["accuracy"])
    (epochs : Nat) (oracle : Nat → String → ℚ) (p : String) (fs : FileSystem) :
    (fit m epochs (trainCallbacks p) oracle fs).2.2 = fs ∧
    (fit m epochs (trainCallbacks p) oracle fs).2.1 = { numEpochs := epochs } := by
  obtain ⟨h1, -, h3⟩ := fitLoop_train m hmet oracle p epochs 0
    { rlr := { lr := m.learningRate, best := none, wait := 0 }
      ckptBest := none, esBest := none, esWait := 0, stop := false, fs := fs } rfl
  constructor
  · simpa [fit] using h1
  · simp [fit, h3]

/-! ## C3: the checkpoint callback can never fire -/

/-- C3 (code bug): `train` attaches a best-only `ModelCheckpoint` monitoring
"val_binary_accuracy", but the compiled metrics produce only
"accuracy"/"val_accuracy" log keys, so the monitored value is never found and
no checkpoint is ever written: training returns with the file system exactly
as it started, whatever the oracle reports. -/
theorem train_checkpoint_never_saves (c : Classifier) (backboneSize : Nat)
    (w : List ℚ) (fs : FileSystem) (epochs : Nat) (model_path : String)
    (oracle : Nat → String → ℚ) :
    KCallback.modelCheckpoint model_path true "val_binary_accuracy" ∈ trainCallbacks model_path ∧
    (logsKeys (builtModel c backboneSize w)).contains "val_binary_accuracy" = false ∧
    (∃ c2, train (build_model c backboneSize w) fs epochs model_path oracle =
      Except.ok (c2, fs)) := by
  refine ⟨List.Mem.head _, rfl, ?_⟩
  have hmet : (builtModel c backboneSize w).metricNames = ["accuracy"] := rfl
  obtain ⟨h1, -⟩ := fit_train (builtModel c backboneSize w) hmet epochs oracle model_path fs
  have ht : train (build_model c backboneSize w) fs epochs model_path oracle =
      Except.ok ({ build_model c backboneSize w with
        model := some (fit (builtModel c backboneSize w) epochs
          (trainCallbacks model_path) oracle fs).1
        history := some (fit (builtModel c backboneSize w) epochs
          (trainCallbacks model_path) oracle fs).2.1 },
        (fit (builtModel c backboneSize w) epochs
          (trainCallbacks model_path) oracle fs).2.2) := rfl
  rw [ht, h1]
  exact ⟨_, rfl⟩

/-! ## C8: learning-rate reduction and the absence of early stopping -/

/-- Ten consecutive stagnant epochs starting from a rested counter multiply the
learning rate by the configured factor 0.1 (with `min_lr = 0` the clamp is
inert for a positive rate). -/
theorem trainRLR_stagnant : ∀ (l : List ℚ) (s : RLRState), 0 < s.lr →
    (∀ x ∈ l, rlrImproved s.best x = false) → s.wait + l.length = 10 → l ≠ [] →
    (trainRLR s l).lr = s.lr * (1 / 10) := by
  intro l
  induction l with
  | nil =>
      intro s _ _ _ hne
      exact absurd rfl hne
  | cons x xs ih =>
      intro s hlr hstag hsum _
      have hx : rlrImproved s.best x = false := hstag x (List.mem_cons_self x xs)
      have hsum2 : s.wait + xs.length + 1 = 10 := by
        simp only [List.length_cons] at hsum
        omega
      have hstep0 : trainRLR s (x :: xs) = trainRLR (applyReduceLR (1 / 10) 10 0 s x) xs := rfl
      by_cases hxs : xs = []
      · subst hxs
        have hw : s.wait = 9 := by simpa using hsum2
        have hred : applyReduceLR (1 / 10) 10 0 s x =
            { lr := max (s.lr * (1 / 10)) 0, best := s.best, wait := 0 } := by
          simp [applyReduceLR, hx, hw, hlr]
        rw [hstep0, hred]
        show max (s.lr * (1 / 10)) 0 = s.lr * (1 / 10)
        exact max_eq_left (le_of_lt (mul_pos hlr (by norm_num)))
      · have hlen1 : 1 ≤ xs.length := List.length_pos.mpr hxs
        have hwlt : ¬ (10 ≤ s.wait + 1) := by omega
        have hstep : applyReduceLR (1 / 10) 10 0 s x = { s with wait := s.wait + 1 } := by
          simp [applyReduceLR, hx, hwlt]
        rw [hstep0, hstep]
        refine ih { s with wait := s.wait + 1 } hlr ?_ ?_ hxs
        · intro y hy
          exact hstag y (List.mem_cons_of_mem x hy)
        · show s.wait + 1 + xs.length = 10
          omega

/-- C8: `train` attaches `ReduceLROnPlateau` on the training loss with factor
0.1 and patience 10, attaches no early-stopping callback, hence training runs
the full requested number of epochs; and under that configuration ten
consecutive stagnant epochs reduce the learning rate by the factor 0.1. -/
theorem train_reduce_lr_full_epochs (model_path : String) (c : Classifier)
    (backboneSize : Nat) (w : List ℚ) (fs : FileSystem) (epochs : Nat)
    (oracle : Nat → String → ℚ) (s : RLRState) (losses : List ℚ)
    (hlr : 0 < s.lr) (hw : s.wait = 0) (hlen : losses.length = 10)
    (hstag : ∀ x ∈ losses, rlrImproved s.best x = false) :
    KCallback.reduceLROnPlateau "loss" (1 / 10) 10 0 ∈ trainCallbacks model_path ∧
    (trainCallbacks model_path).all (fun cb => !isEarlyStopping cb) = true ∧
    (∃ c2 fs2, train (build_model c backboneSize w) fs epochs model_path oracle =
      Except.ok (c2, fs2) ∧ c2.history = some { numEpochs := epochs }) ∧
    (trainRLR s losses).lr = s.lr * (1 / 10) := by
  refine ⟨List.mem_cons_of_mem _ (List.Mem.head _), rfl, ?_, ?_⟩
  · have hmet : (builtModel c backboneSize w).metricNames = ["accuracy"] := rfl
    obtain ⟨-, h2⟩ := fit_train (builtModel c backboneSize w) hmet epochs oracle model_path fs
    refine ⟨_, _, rfl, ?_⟩
    show some (fit (builtModel c backboneSize w) epochs
      (trainCallbacks model_path) oracle fs).2.1 = some { numEpochs := epochs }
    rw [h2]
  · refine trainRLR_stagnant losses s hlr hstag (by omega) ?_
    intro hnil
    rw [hnil] at hlen
    simp at hlen

/-- Witness for C8 at a concrete state and loss sequence. -/
theorem train_reduce_lr_full_epochs_wit :
    KCallback.reduceLROnPlateau "loss" (1 / 10) 10 0 ∈ trainCallbacks "best.keras" ∧
    (trainCallbacks "best.keras").all (fun cb => !isEarlyStopping cb) = true ∧
    (∃ c2 fs2, train (build_model exClassifier 4 []) [] 3 "best.keras" (fun _ _ => 0) =
      Except.ok (c2, fs2) ∧ c2.history = some { numEpochs := 3 }) ∧
    (trainRLR { lr := 1, best := some 5, wait := 0 } (List.replicate 10 6)).lr = 1 * (1 / 10) :=
  train_reduce_lr_full_epochs "best.keras" exClassifier 4 [] [] 3 (fun _ _ => 0)
    { lr := 1, best := some 5, wait := 0 } (List.replicate 10 6)
    (by norm_num) rfl (by simp)
    (by
      intro x hx
      rw [List.eq_of_mem_replicate hx]
      simp only [rlrImproved, decide_eq_false_iff_not, not_lt]
      norm_num)

end TLEfficient
